import Mathlib

set_option maxRecDepth 40000

/-!
Verification of the PN532 contactless-reader driver (src/lib.rs).

The driver's core is embedded shallowly:
- byte sequences are lists of naturals, with wrapping u8 arithmetic written
  explicitly as arithmetic modulo 256;
- the outbound information-frame builder (send_frame) becomes a pure
  function returning the byte sequence, with the length-precondition check
  modelled as an Option;
- the two inbound scanners (the acknowledgment scanner inside expect_ack
  and the response-frame scanner inside receive_frame) are the same
  3-state byte automaton the Rust code runs over a fixed-size read buffer;
  an index access that would panic in Rust (slice or index out of range)
  is modelled by an explicit oobPanic result;
- the tag-list decoder (the body of list after receive_frame) and the
  firmware-version tuple extraction are direct translations.
-/

namespace Pn532

/-- Model of u8 wrapping subtraction as used by the checksum fold:
one step of checksum = checksum.wrapping_sub(p) for a byte p. -/
def chkStep (c p : Nat) : Nat := (c + 256 - p % 256) % 256

/-- Model of the payload checksum computed in send_frame:
starts from 0u8.wrapping_sub(0xd4) and wrapping-subtracts every payload byte. -/
def payload_checksum (payload : List Nat) : Nat :=
  payload.foldl chkStep ((256 - 0xd4) % 256)

/-- Byte sequence built by send_frame (preamble, start marker, length,
length checksum, direction byte 0xd4, payload, payload checksum, postamble).
The length byte models the cast payload.len() as u8 + 1 with wraparound. -/
def frameBytes (payload : List Nat) : List Nat :=
  0x00 :: 0x00 :: 0xff :: ((payload.length % 256 + 1) % 256) ::
    ((256 - (payload.length % 256 + 1) % 256) % 256) :: 0xd4 ::
    (payload ++ [payload_checksum payload, 0x00])

/-- Model of send_frame: the assert on payload.len() < 0xfe is modelled as
returning none when it would fail, and otherwise the frame bytes that are
written to the bus. -/
def send_frame (payload : List Nat) : Option (List Nat) :=
  if payload.length < 0xfe then some (frameBytes payload) else none

/-- Result of scanning one read buffer inside expect_ack. The Rust code
returns Ok on ack, and distinct errors for nack, application error and
out-of-order bytes; noMarker means the byte loop finished without reaching
a terminal arm (the outer retry loop continues); oobPanic marks the read
of b at index i+2 going out of bounds, which panics in Rust. -/
inductive AckScan
  | ok
  | nack
  | appError (code : Nat)
  | outOfOrder
  | noMarker
  | oobPanic
deriving DecidableEq

/-- One pass of the expect_ack byte loop: i is the loop index, state the
3-state automaton state, fuel counts the remaining iterations (the Rust
loop runs for i in 0..b.len()). -/
def ackScanGo (b : List Nat) : Nat → Nat → Nat → AckScan
  | 0, _, _ => .noMarker
  | fuel+1, i, state =>
    match b[i]? with
    | none => .noMarker
    | some c =>
      if c = 0x00 ∧ state = 0 then ackScanGo b fuel (i+1) 1
      else if c = 0x00 ∧ state = 1 then ackScanGo b fuel (i+1) 1
      else if c = 0xff ∧ state = 1 then ackScanGo b fuel (i+1) 2
      else if c = 0x00 ∧ state = 2 then .ok
      else if c = 0xff ∧ state = 2 then .nack
      else if c = 0x01 ∧ state = 2 then
        match b[i+2]? with
        | some code => .appError code
        | none => .oobPanic
      else if state = 2 then .outOfOrder
      else ackScanGo b fuel (i+1) 0

/-- Scan of one full read buffer by the expect_ack automaton. -/
def ackScan (b : List Nat) : AckScan := ackScanGo b b.length 0 0

/-- Overall outcome of expect_ack including the timeout after 3 attempts. -/
inductive AckOutcome
  | ok
  | nack
  | appError (code : Nat)
  | outOfOrder
  | timeout
  | oobPanic
deriving DecidableEq

/-- Terminal outcome of one buffer scan, none when the scan found nothing
and the retry loop should poll again. -/
def ackScanOutcome : AckScan → Option AckOutcome
  | .ok => some .ok
  | .nack => some .nack
  | .appError c => some (.appError c)
  | .outOfOrder => some .outOfOrder
  | .oobPanic => some .oobPanic
  | .noMarker => none

/-- Retry loop of expect_ack: reads k is the buffer returned by the k-th
bus read; the result pairs the outcome with the number of reads performed. -/
def expectAckGo (reads : Nat → List Nat) : Nat → Nat → AckOutcome × Nat
  | 0, used => (.timeout, used)
  | n+1, used =>
    match ackScanOutcome (ackScan (reads used)) with
    | some o => (o, used + 1)
    | none => expectAckGo reads n (used + 1)

/-- Model of expect_ack: up to 3 reads of the scan buffer. -/
def expect_ack (reads : Nat → List Nat) : AckOutcome × Nat :=
  expectAckGo reads 3 0

/-- Result of scanning one read buffer inside receive_frame: again means
an ack or nack frame was seen, or the loop finished, so the outer loop
polls again; payload carries the extracted response payload; oobPanic
marks the index or slice access that panics in Rust. -/
inductive FrameScan
  | again
  | appError (code : Nat)
  | payload (bytes : List Nat)
  | oobPanic
deriving DecidableEq

/-- One pass of the receive_frame byte loop over one read buffer. -/
def frameScanGo (b : List Nat) : Nat → Nat → Nat → FrameScan
  | 0, _, _ => .again
  | fuel+1, i, state =>
    match b[i]? with
    | none => .again
    | some c =>
      if c = 0x00 ∧ state = 0 then frameScanGo b fuel (i+1) 1
      else if c = 0x00 ∧ state = 1 then frameScanGo b fuel (i+1) 1
      else if c = 0xff ∧ state = 1 then frameScanGo b fuel (i+1) 2
      else if c = 0x00 ∧ state = 2 then .again
      else if c = 0xff ∧ state = 2 then .again
      else if c = 0x01 ∧ state = 2 then
        match b[i+2]? with
        | some code => .appError code
        | none => .oobPanic
      else if state = 2 then
        if i + 3 + (c - 1) ≤ b.length then .payload ((b.drop (i+3)).take (c-1))
        else .oobPanic
      else frameScanGo b fuel (i+1) 0

/-- Scan of one full read buffer by the receive_frame automaton. -/
def frameScan (b : List Nat) : FrameScan := frameScanGo b b.length 0 0

/-- Model of the firmware-version tuple extraction (r[1], r[2], r[3], r[4])
performed by get_firmware_version on the received payload; none models the
index panic when the payload is shorter than 5 bytes. -/
def firmware_decode (r : List Nat) : Option (Nat × Nat × Nat × Nat) :=
  match r[1]?, r[2]?, r[3]?, r[4]? with
  | some a, some b, some c, some d => some (a, b, c, d)
  | _, _, _, _ => none

/-- Loop of the tag-list decoder in list: num entries remain, i is the
cursor into the payload r, tags the accumulator. Every bounds check that
fails returns the empty list, exactly as the Rust code does. -/
def listGo (r : List Nat) : Nat → Nat → List (List Nat) → List (List Nat)
  | 0, _, tags => tags
  | num+1, i, tags =>
    if r.length ≤ i then []
    else if r.length ≤ i + 4 then []
    else if r.length ≤ i + 5 then []
    else if r.length < i + 5 + r.getD (i+4) 0 then []
    else if i + 5 + r.getD (i+4) 0 < r.length then
      if r.getD (i + 5 + r.getD (i+4) 0) 0 = 2 then
        listGo r num (i + 5 + r.getD (i+4) 0)
          (tags ++ [(r.drop (i+5)).take (r.getD (i+4) 0)])
      else
        listGo r num
          (i + 5 + r.getD (i+4) 0 + r.getD (i + 5 + r.getD (i+4) 0) 0)
          (tags ++ [(r.drop (i+5)).take (r.getD (i+4) 0)])
    else
      listGo r num (i + 5 + r.getD (i+4) 0)
        (tags ++ [(r.drop (i+5)).take (r.getD (i+4) 0)])

/-- Model of the decoding part of list: payloads shorter than 5 bytes mean
no tags; otherwise r[1] is the tag count and decoding starts at index 2. -/
def list (r : List Nat) : List (List Nat) :=
  if r.length < 5 then [] else listGo r (r.getD 1 0) 2 []

/-- Instrumented variant of listGo distinguishing a bounds-check abort
(none) from a completed decode (some tags); used to state the conservative
failure policy that an abort never surfaces partial results. -/
def listGoOpt (r : List Nat) : Nat → Nat → List (List Nat) → Option (List (List Nat))
  | 0, _, tags => some tags
  | num+1, i, tags =>
    if r.length ≤ i then none
    else if r.length ≤ i + 4 then none
    else if r.length ≤ i + 5 then none
    else if r.length < i + 5 + r.getD (i+4) 0 then none
    else if i + 5 + r.getD (i+4) 0 < r.length then
      if r.getD (i + 5 + r.getD (i+4) 0) 0 = 2 then
        listGoOpt r num (i + 5 + r.getD (i+4) 0)
          (tags ++ [(r.drop (i+5)).take (r.getD (i+4) 0)])
      else
        listGoOpt r num
          (i + 5 + r.getD (i+4) 0 + r.getD (i + 5 + r.getD (i+4) 0) 0)
          (tags ++ [(r.drop (i+5)).take (r.getD (i+4) 0)])
    else
      listGoOpt r num (i + 5 + r.getD (i+4) 0)
        (tags ++ [(r.drop (i+5)).take (r.getD (i+4) 0)])

/-- Instrumented variant of list: none when a bounds check aborted the
decode, some tags when the decode ran to completion. -/
def listOpt (r : List Nat) : Option (List (List Nat)) :=
  if r.length < 5 then some [] else listGoOpt r (r.getD 1 0) 2 []

/-- Detects a 0x00 0x00 0xff start-marker collision inside a byte list. -/
def hasMarker : List Nat → Bool
  | 0x00 :: 0x00 :: 0xff :: _ => true
  | _ :: t => hasMarker t
  | [] => false

/-- Unfolding equation for one iteration of the expect_ack byte loop. -/
lemma ackScanGo_succ (b : List Nat) (f i s : Nat) :
    ackScanGo b (f+1) i s =
      match b[i]? with
      | none => AckScan.noMarker
      | some c =>
        if c = 0x00 ∧ s = 0 then ackScanGo b f (i+1) 1
        else if c = 0x00 ∧ s = 1 then ackScanGo b f (i+1) 1
        else if c = 0xff ∧ s = 1 then ackScanGo b f (i+1) 2
        else if c = 0x00 ∧ s = 2 then AckScan.ok
        else if c = 0xff ∧ s = 2 then AckScan.nack
        else if c = 0x01 ∧ s = 2 then
          match b[i+2]? with
          | some code => AckScan.appError code
          | none => AckScan.oobPanic
        else if s = 2 then AckScan.outOfOrder
        else ackScanGo b f (i+1) 0 := rfl

/-- Unfolding equation for one iteration of the receive_frame byte loop. -/
lemma frameScanGo_succ (b : List Nat) (f i s : Nat) :
    frameScanGo b (f+1) i s =
      match b[i]? with
      | none => FrameScan.again
      | some c =>
        if c = 0x00 ∧ s = 0 then frameScanGo b f (i+1) 1
        else if c = 0x00 ∧ s = 1 then frameScanGo b f (i+1) 1
        else if c = 0xff ∧ s = 1 then frameScanGo b f (i+1) 2
        else if c = 0x00 ∧ s = 2 then FrameScan.again
        else if c = 0xff ∧ s = 2 then FrameScan.again
        else if c = 0x01 ∧ s = 2 then
          match b[i+2]? with
          | some code => FrameScan.appError code
          | none => FrameScan.oobPanic
        else if s = 2 then
          if i + 3 + (c - 1) ≤ b.length then FrameScan.payload ((b.drop (i+3)).take (c-1))
          else FrameScan.oobPanic
        else frameScanGo b f (i+1) 0 := rfl

/-- Unfolding equation for one attempt of the expect_ack retry loop. -/
lemma expectAckGo_succ (reads : Nat → List Nat) (n used : Nat) :
    expectAckGo reads (n+1) used =
      match ackScanOutcome (ackScan (reads used)) with
      | some o => (o, used + 1)
      | none => expectAckGo reads n (used + 1) := rfl

/-- Scanning a buffer that opens with the start marker runs the first three
automaton steps and leaves the receive_frame scanner at index 3 in state 2. -/
lemma frameScan_reach (c : Nat) (rest : List Nat) :
    frameScan (0x00 :: 0x00 :: 0xff :: c :: rest) =
      frameScanGo (0x00 :: 0x00 :: 0xff :: c :: rest) (rest.length + 1) 3 2 := rfl

/-- Scanning a buffer that opens with the start marker runs the first three
automaton steps and leaves the expect_ack scanner at index 3 in state 2. -/
lemma ackScan_reach (c : Nat) (rest : List Nat) :
    ackScan (0x00 :: 0x00 :: 0xff :: c :: rest) =
      ackScanGo (0x00 :: 0x00 :: 0xff :: c :: rest) (rest.length + 1) 3 2 := rfl

/-- In state 2, a size byte other than 0x00, 0x01 and 0xff makes the
receive_frame scanner extract the declared payload when it fits the buffer
and hit the out-of-bounds slice panic otherwise. -/
lemma frameScanGo_state2 (b : List Nat) (f i c : Nat) (hc : b[i]? = some c)
    (h0 : c ≠ 0x00) (h1 : c ≠ 0x01) (hff : c ≠ 0xff) :
    frameScanGo b (f+1) i 2 =
      if i + 3 + (c - 1) ≤ b.length then FrameScan.payload ((b.drop (i+3)).take (c-1))
      else FrameScan.oobPanic := by
  rw [frameScanGo_succ, hc]
  simp [h0, h1, hff]

/-- Full scan of a buffer that opens with the start marker followed by a
data-frame size byte c: the two bytes r1 r2 after the size byte (the
length checksum and direction positions) are skipped by the 3-byte offset
and the payload is taken from the bytes after them. -/
lemma frameScan_size (c r1 r2 : Nat) (rest2 : List Nat)
    (h0 : c ≠ 0x00) (h1 : c ≠ 0x01) (hff : c ≠ 0xff) :
    frameScan (0x00 :: 0x00 :: 0xff :: c :: r1 :: r2 :: rest2) =
      if 3 + 3 + (c - 1) ≤ rest2.length + 6 then
        FrameScan.payload (rest2.take (c - 1))
      else FrameScan.oobPanic := by
  rw [frameScan_reach, frameScanGo_state2 _ _ _ c (by simp) h0 h1 hff,
    show ((0x00:Nat) :: 0x00 :: 0xff :: c :: r1 :: r2 :: rest2).drop (3+3) = rest2 from rfl,
    show ((0x00:Nat) :: 0x00 :: 0xff :: c :: r1 :: r2 :: rest2).length = rest2.length + 6 from by
      simp only [List.length_cons]]

/-- Full scan of a buffer whose start marker is followed by the 0x01 error
tag: the reported code is read two positions past the 0x01, that is the
byte x at index 5 of the buffer, skipping the byte a right after the 0x01. -/
lemma ackScan_appError (a x : Nat) (t : List Nat) :
    ackScan (0x00 :: 0x00 :: 0xff :: 0x01 :: a :: x :: t) = AckScan.appError x := by
  rw [ackScan_reach, ackScanGo_succ]
  simp

/-- Wrapping-subtraction fold invariant: the running checksum plus the sum
of the bytes folded so far is constant modulo 256. -/
lemma checksum_fold (l : List Nat) : ∀ c : Nat,
    (l.foldl chkStep c + l.sum) % 256 = c % 256 := by
  induction l with
  | nil => intro c; simp
  | cons p t ih =>
    intro c
    simp only [List.foldl_cons, List.sum_cons]
    have h := ih (chkStep c p)
    simp only [chkStep] at h ⊢
    omega

/-- A terminal result of the first buffer scan is returned by expect_ack
after exactly one read. -/
lemma expect_ack_first (reads : Nat → List Nat) (o : AckOutcome)
    (h : ackScanOutcome (ackScan (reads 0)) = some o) :
    expect_ack reads = (o, 1) := by
  unfold expect_ack
  rw [show (3:Nat) = 2+1 from rfl, expectAckGo_succ, h]

/-- The plain decoder loop agrees with the instrumented one, with a
bounds-check abort collapsed to the empty list. -/
lemma listGo_opt (r : List Nat) : ∀ num i tags,
    listGo r num i tags = (listGoOpt r num i tags).getD [] := by
  intro num
  induction num with
  | zero => intro i tags; rfl
  | succ n ih =>
    intro i tags
    simp only [listGo, listGoOpt]
    split_ifs <;> simp [ih]

/-- Each loop iteration of the tag-list decoder appends at most one tag. -/
lemma listGo_length (r : List Nat) : ∀ num i tags,
    (listGo r num i tags).length ≤ tags.length + num := by
  intro num
  induction num with
  | zero => intro i tags; simp [listGo]
  | succ n ih =>
    intro i tags
    simp only [listGo]
    split_ifs
    · simp
    · simp
    · simp
    · simp
    · exact le_trans (ih _ _) (by simp; omega)
    · exact le_trans (ih _ _) (by simp; omega)
    · exact le_trans (ih _ _) (by simp; omega)

/-- Every tag produced by the decoder loop either was already accumulated
or is a contiguous slice of the payload of the declared UID length. -/
lemma listGo_sub (r : List Nat) : ∀ num i tags t, t ∈ listGo r num i tags →
    t ∈ tags ∨ ∃ j, t = (r.drop j).take t.length := by
  intro num
  induction num with
  | zero =>
    intro i tags t ht
    exact Or.inl (by simpa [listGo] using ht)
  | succ n ih =>
    intro i tags t ht
    simp only [listGo] at ht
    split_ifs at ht with h1 h2 h3 h4 h5 h6
    · simp at ht
    · simp at ht
    · simp at ht
    · simp at ht
    all_goals
      rcases ih _ _ _ ht with hmem | hslice
      · rw [List.mem_append] at hmem
        rcases hmem with hm | hm
        · exact Or.inl hm
        · right
          simp only [List.mem_singleton] at hm
          refine ⟨i + 5, ?_⟩
          have hlen : t.length = r.getD (i+4) 0 := by
            rw [hm]
            simp only [List.length_take, List.length_drop]
            omega
          rw [hlen]
          exact hm
      · exact Or.inr hslice

/-- Claim C2: for every payload of length at most 253, send_frame produces
exactly the frame preamble 0x00, start 0x00 0xff, length byte equal to the
payload length plus one, a length-checksum byte summing with the length to
0 mod 256, the direction byte 0xd4, the payload, a payload-checksum byte
summing with 0xd4 plus the payload bytes to 0 mod 256, and the 0x00
postamble; for payload length at least 254 the precondition check fails. -/
theorem send_frame_spec (payload : List Nat) :
    (payload.length < 254 →
      ∃ lc cs, send_frame payload =
          some (0x00 :: 0x00 :: 0xff :: (payload.length + 1) :: lc :: 0xd4 ::
            (payload ++ [cs, 0x00])) ∧
        (payload.length + 1 + lc) % 256 = 0 ∧
        (cs + (0xd4 + payload.sum)) % 256 = 0) ∧
    (254 ≤ payload.length → send_frame payload = none) := by
  constructor
  · intro h
    have hlenbyte : (payload.length % 256 + 1) % 256 = payload.length + 1 := by omega
    refine ⟨(256 - (payload.length % 256 + 1) % 256) % 256, payload_checksum payload,
      ?_, ?_, ?_⟩
    · unfold send_frame frameBytes
      rw [if_pos (show payload.length < 0xfe by omega), hlenbyte]
    · rw [hlenbyte]
      omega
    · have hc := checksum_fold payload ((256 - 0xd4) % 256)
      unfold payload_checksum
      omega
  · intro h
    unfold send_frame
    rw [if_neg (by omega)]

/-- Witness for send_frame_spec: the two-byte payload 0x02 0x03 is framed
as specified, and a 254-byte payload is rejected. -/
theorem send_frame_spec_witness :
    (∃ lc cs, send_frame [0x02, 0x03] =
        some (0x00 :: 0x00 :: 0xff :: (([0x02, 0x03] : List Nat).length + 1) :: lc :: 0xd4 ::
          ([0x02, 0x03] ++ [cs, 0x00])) ∧
      (([0x02, 0x03] : List Nat).length + 1 + lc) % 256 = 0 ∧
      (cs + (0xd4 + ([0x02, 0x03] : List Nat).sum)) % 256 = 0) ∧
    send_frame (List.replicate 254 0) = none :=
  ⟨(send_frame_spec [0x02, 0x03]).1 (by decide),
    (send_frame_spec (List.replicate 254 0)).2 (by simp)⟩

/-- Claim C9: for every firmware-query response payload of at least 5
bytes, the firmware-identity decode returns the 4-tuple read from payload
offsets 1 through 4, offset 0 being skipped. -/
theorem firmware_decode_spec (r : List Nat) (h : 5 ≤ r.length) :
    firmware_decode r = some (r.getD 1 0, r.getD 2 0, r.getD 3 0, r.getD 4 0) := by
  match r, h with
  | a :: b :: c :: d :: e :: t, _ => simp [firmware_decode]
  | [], h | [_], h | [_, _], h | [_, _, _], h | [_, _, _, _], h => simp at h

/-- Witness for firmware_decode_spec on the spec's vector. -/
theorem firmware_decode_spec_witness :
    firmware_decode [0x00, 0x32, 0x01, 0x06, 0x07] = some (0x32, 0x01, 0x06, 0x07) :=
  (firmware_decode_spec [0x00, 0x32, 0x01, 0x06, 0x07] (by decide)).trans (by decide)

/-- Claim C7: a tag-list payload shorter than 5 bytes, or one on which any
bounds check fires during decoding (truncation mid-entry), makes the
decoder return the empty list, never an error and never a partial list. -/
theorem list_abort_empty (r : List Nat) (h : r.length < 5 ∨ listOpt r = none) :
    list r = [] := by
  rcases h with h | h
  · unfold list
    rw [if_pos h]
  · unfold listOpt at h
    unfold list
    by_cases h5 : r.length < 5
    · rw [if_pos h5]
    · rw [if_neg h5] at h ⊢
      rw [listGo_opt, h]
      rfl

/-- Witness for list_abort_empty: a 3-byte payload and a payload truncated
right after a UID length field both decode to no tags. -/
theorem list_abort_empty_witness :
    list [0x00, 0x00, 0x00] = [] ∧
      list [0x00, 0x01, 0x00, 0xAA, 0xBB, 0x09, 0x01] = [] :=
  ⟨list_abort_empty _ (Or.inl (by decide)), list_abort_empty _ (Or.inr (by decide))⟩

/-- Claim C10: the tag-list decoder returns at most r[1] tag records (the
declared tag-count byte), and every returned record is a contiguous slice
of the received payload. -/
theorem list_count_and_slices (r : List Nat) :
    (list r).length ≤ r.getD 1 0 ∧
      ∀ t, t ∈ list r → ∃ j, t = (r.drop j).take t.length := by
  unfold list
  split_ifs with h
  · simp
  · constructor
    · simpa using listGo_length r (r.getD 1 0) 2 []
    · intro t ht
      rcases listGo_sub r _ _ _ _ ht with hm | hs
      · simp at hm
      · exact hs

/-- Witness for list_count_and_slices: the single tag decoded from a
well-formed one-entry payload is a slice of that payload. -/
theorem list_count_and_slices_witness :
    ∃ j, ([0x04, 0x05, 0x06, 0x07] : List Nat) =
      (([0x00, 0x01, 0x00, 0xAA, 0xBB, 0x00, 0x04, 0x04, 0x05, 0x06, 0x07, 0x02] :
        List Nat).drop j).take ([0x04, 0x05, 0x06, 0x07] : List Nat).length :=
  (list_count_and_slices
      [0x00, 0x01, 0x00, 0xAA, 0xBB, 0x00, 0x04, 0x04, 0x05, 0x06, 0x07, 0x02]).2
    [0x04, 0x05, 0x06, 0x07] (by decide)

/-- Claim C8: if none of the polled scan buffers produces a terminal
outcome, expect_ack fails with a timeout after exactly 3 read attempts. -/
theorem expect_ack_timeout (reads : Nat → List Nat)
    (h : ∀ k, k < 3 → ackScan (reads k) = AckScan.noMarker) :
    expect_ack reads = (AckOutcome.timeout, 3) := by
  unfold expect_ack
  show expectAckGo reads (2+1) 0 = (AckOutcome.timeout, 3)
  rw [expectAckGo_succ, h 0 (by omega)]
  show expectAckGo reads (1+1) 1 = (AckOutcome.timeout, 3)
  rw [expectAckGo_succ, h 1 (by omega)]
  show expectAckGo reads (0+1) 2 = (AckOutcome.timeout, 3)
  rw [expectAckGo_succ, h 2 (by omega)]
  rfl

/-- Witness for expect_ack_timeout: an all-zero bus never yields a marker. -/
theorem expect_ack_timeout_witness :
    expect_ack (fun _ => List.replicate 256 0) = (AckOutcome.timeout, 3) :=
  expect_ack_timeout _ (fun _ _ => by decide)

/-- Claim C4 counterexample: on the spec's 11-byte vector the decoder does
not produce the tag 0x04 0x05 0x06 0x07 claimed by the spec. -/
theorem list_vector_cex :
    list [0x00, 0x01, 0x00, 0xAA, 0xBB, 0x04, 0x04, 0x05, 0x06, 0x07, 0x02] ≠
      [[0x04, 0x05, 0x06, 0x07]] := by decide

/-- Claim C4 amended: on that vector the byte 0x04 at index 5 is consumed
as the select-response field, the next 0x04 is the UID length, and the
decoder yields the single tag 0x05 0x06 0x07 0x02, the trailing 0x02
being consumed as the last UID byte. -/
theorem list_vector_actual :
    list [0x00, 0x01, 0x00, 0xAA, 0xBB, 0x04, 0x04, 0x05, 0x06, 0x07, 0x02] =
      [[0x05, 0x06, 0x07, 0x02]] := by decide

/-- Claim C5 counterexample: on a buffer starting 0x00 0x00 0xff 0x01 0xab
(rest zero) expect_ack does not report application error 0xab, because the
code byte is read two positions past the 0x01, not immediately after it. -/
theorem ack_app_error_cex :
    (expect_ack (fun _ => [0x00, 0x00, 0xff, 0x01, 0xab] ++ List.replicate 251 0)).1 ≠
      AckOutcome.appError 0xab := by decide

/-- Claim C5 amended: for every 256-byte scan buffer starting with
0x00 0x00 0xff 0x01 0xab, expect_ack reports an application error whose
code is the buffer byte at index 5 (two positions past the 0x01; the byte
right after the 0x01 is skipped), after a single read. -/
theorem ack_app_error_offset (b : List Nat) (hb : b.length = 256)
    (ht : b.take 5 = [0x00, 0x00, 0xff, 0x01, 0xab]) :
    expect_ack (fun _ => b) = (AckOutcome.appError (b.getD 5 0), 1) := by
  have h5 : 5 < b.length := by omega
  have hgd : b.getD 5 0 = b[5] := by
    simp [List.getD_eq_getElem?_getD, List.getElem?_eq_getElem h5]
  have hcons : b = 0x00 :: 0x00 :: 0xff :: 0x01 :: 0xab :: b[5] :: b.drop 6 := by
    conv_lhs => rw [(List.take_append_drop 5 b).symm]
    rw [ht, List.drop_eq_getElem_cons h5]
    simp
  have hscan : ackScan b = AckScan.appError b[5] := by
    conv_lhs => rw [hcons]
    exact ackScan_appError 0xab b[5] (b.drop 6)
  rw [hgd]
  exact expect_ack_first _ _ (by simp [hscan, ackScanOutcome])

/-- Witness for ack_app_error_offset: the byte at index 5 is 0x7f here and
is the reported code. -/
theorem ack_app_error_offset_witness :
    expect_ack (fun _ => [0x00, 0x00, 0xff, 0x01, 0xab, 0x7f] ++ List.replicate 250 0) =
      (AckOutcome.appError 0x7f, 1) :=
  (ack_app_error_offset _ (by decide) (by decide)).trans (by decide)

/-- Claim C6: evaluation at a failing input. A read buffer of 254 zero
bytes followed by 0xff 0x01 drives the expect_ack automaton to the
application-error arm at index 255, whose read of the byte at index 257
is out of bounds: the Rust code panics there instead of returning a typed
result. -/
theorem expect_ack_oob_panics :
    expect_ack (fun _ => List.replicate 254 0 ++ [0xff, 0x01]) =
      (AckOutcome.oobPanic, 1) := by decide

/-- Claim C3: evaluation at a failing input. A 256-byte buffer whose start
marker is followed by the size byte 0xfe declares a 253-byte payload
reaching index 258: the receive_frame slice is out of bounds and the Rust
code panics instead of returning a decode error. -/
theorem frame_oversize_panics :
    frameScan ([0x00, 0x00, 0xff, 0xfe] ++ List.replicate 252 0) =
      FrameScan.oobPanic := by decide

/-- Claim C1 counterexample: the empty payload satisfies every hypothesis
of the round-trip claim (length below 254, no embedded start marker), yet
scanning a 256-byte buffer that begins with its encoding does not return
the empty payload: the length byte 0x01 is taken for an application-error
tag. -/
theorem roundtrip_empty_cex :
    ([] : List Nat).length < 254 ∧ hasMarker [] = false ∧
      (frameBytes [] ++ List.replicate 248 0).length = 256 ∧
      (frameBytes [] ++ List.replicate 248 0).take (([] : List Nat).length + 8) =
        frameBytes [] ∧
      frameScan (frameBytes [] ++ List.replicate 248 0) ≠ FrameScan.payload [] := by
  decide

/-- Claim C1 amended: for every nonempty payload of length below 254 with
no 0x00 0x00 0xff collision inside it, scanning a 256-byte buffer that
begins with its encoding reproduces the payload exactly. -/
theorem roundtrip_nonempty (payload b : List Nat)
    (hne : 1 ≤ payload.length) (hlt : payload.length < 254)
    (_hm : hasMarker payload = false) (hb : b.length = 256)
    (ht : b.take (payload.length + 8) = frameBytes payload) :
    frameScan b = FrameScan.payload payload := by
  have hfl : (frameBytes payload).length = payload.length + 8 := by
    simp only [frameBytes, List.length_cons, List.length_append, List.length_nil]
  have hle : payload.length + 8 ≤ 256 := by
    have hlen := congrArg List.length ht
    rw [List.length_take, hb, hfl] at hlen
    omega
  have hsplit : b = frameBytes payload ++ b.drop (payload.length + 8) := by
    conv_lhs => rw [(List.take_append_drop (payload.length + 8) b).symm]
    rw [ht]
  have hlenbyte : (payload.length % 256 + 1) % 256 = payload.length + 1 := by omega
  have hdlen : (b.drop (payload.length + 8)).length = 256 - (payload.length + 8) := by
    rw [List.length_drop, hb]
  rw [hsplit]
  simp only [frameBytes, hlenbyte, List.cons_append]
  rw [frameScan_size (payload.length + 1) _ _ _ (by omega) (by omega) (by omega)]
  rw [if_pos (by
    simp only [List.length_append, List.length_cons, List.length_nil, hdlen]
    omega)]
  congr 1
  rw [show payload.length + 1 - 1 = payload.length from by omega, List.append_assoc]
  exact List.take_left payload _

/-- Witness for roundtrip_nonempty on the one-byte payload 0xab. -/
theorem roundtrip_nonempty_witness :
    frameScan (frameBytes [0xAB] ++ List.replicate 247 0) = FrameScan.payload [0xAB] :=
  roundtrip_nonempty [0xAB] _ (by decide) (by decide) (by decide) (by decide) (by decide)

end Pn532
